import Mathlib

/-!
Verification of the Matrix_toy kiosk console against its specification.

The Python sources (`footer.py`, `header.py`, `matrix_console.py`,
`matrix_movie_singleline.py`) are shallowly embedded below: Python floats
become `ℚ`, Python ints become `ℤ`/`ℕ`, Python dicts become insertion-ordered
association lists, and the randomness sources (`random.random`,
`random.choice`) become explicit oracle parameters.
-/

set_option maxHeartbeats 1000000

namespace MatrixToy

/-- Truncation toward zero, as Python's `int()` applied to a float. -/
def pytrunc (q : ℚ) : ℤ := if q < 0 then ⌈q⌉ else ⌊q⌋

/-- Python's float `%` operator for a positive divisor: `a - b * floor (a / b)`. -/
def pymod (a b : ℚ) : ℚ := a - b * (⌊a / b⌋ : ℚ)

/-! ## Colors (module constants of `header.py`) -/

/-- RGB color triple. -/
abbrev Color := ℤ × ℤ × ℤ

def BLACK : Color := (0, 0, 0)

def GREEN : Color := (0, 255, 0)

def WHITE : Color := (255, 255, 255)

def CYAN : Color := (0, 200, 255)

def BLUE : Color := (0, 160, 255)

def YELLOW : Color := (220, 220, 0)

def RED : Color := (255, 0, 0)

/-- `header._lerp_color`: linear interpolation between two RGB colors with the
parameter clamped to `[0, 1]` and each component truncated by Python `int()`. -/
def lerp_color (a b : Color) (t : ℚ) : Color :=
  let t' := max 0 (min 1 t)
  (pytrunc ((a.1 : ℚ) + ((b.1 - a.1 : ℤ) : ℚ) * t'),
   pytrunc ((a.2.1 : ℚ) + ((b.2.1 - a.2.1 : ℤ) : ℚ) * t'),
   pytrunc ((a.2.2 : ℚ) + ((b.2.2 - a.2.2 : ℤ) : ℚ) * t'))

/-- `header._get_countdown_color`: base color of the countdown text.
`scan_interval` is accepted (as in the source) but unused. -/
def get_countdown_color (remaining : ℚ) (scan_interval : ℤ) : Color :=
  let r := max 0 remaining
  if 15 < r then GREEN
  else if 10 < r ∧ r ≤ 15 then lerp_color GREEN YELLOW ((15 - r) / 5)
  else if 5 < r ∧ r ≤ 10 then lerp_color YELLOW RED ((10 - r) / 5)
  else RED

/-! ## Footer ticker position (`footer.draw_footer`, scroll/wrap portion) -/

/-- Position update performed by `footer.draw_footer` once a rendered ticker
surface of width `width` exists: truncate the incoming position, decrement by
`tick_speed`, and wrap to `screen_width` when the result is left of `-width`. -/
def draw_footer_pos (ticker_x : ℚ) (width : ℤ) (screen_width : ℤ) (tick_speed : ℚ) : ℚ :=
  let x0 : ℚ := ((pytrunc ticker_x : ℤ) : ℚ)
  let x1 := x0 - tick_speed
  if x1 < -(width : ℚ) then (screen_width : ℚ) else x1

/-! ## Title reveal animator (`header._animate_title_text`) -/

/-- Character set for the de-hash animation of the title (`header.JAP_CHARS`). -/
def JAP_CHARS : List Char := "ABCDEFGHIJKLMNOPQRSTUVWXYZ0123456789#$%&@\\/_<>[]\x7b\x7d()=-_".data

/-- `header._animate_title_text`: partially revealed/dehashed title and reveal
progress.  `random.choice(JAP_CHARS)` is modelled by the oracle `rand`, read at
the character index and reduced mod the alphabet size. -/
def animate_title_text (full_text : String) (cycle_elapsed : ℚ) (scan_interval : ℤ)
    (rand : ℕ → ℕ) : String × ℤ :=
  let period : ℚ := (scan_interval : ℚ)
  if period ≤ 1 then (full_text, (full_text.length : ℤ))
  else
    let reveal : ℚ := period - 1
    let cycle_t : ℚ := pymod cycle_elapsed period
    if reveal ≤ cycle_t then (full_text, (full_text.length : ℤ))
    else
      let length := full_text.length
      if length = 0 then (full_text, 0)
      else
        let progress : ℤ := max 0 (min (length : ℤ) (pytrunc (cycle_t / reveal * (length : ℚ))))
        let out := full_text.data.mapIdx fun i char =>
          if char = ' ' then ' '
          else if (i : ℤ) < progress then char
          else JAP_CHARS.getD (rand i % JAP_CHARS.length) 'A'
        (String.mk out, progress)

/-! ## Python dictionaries

Python dicts are insertion-ordered; assignment updates an existing key in place
and otherwise appends at the end. -/

/-- `d[k]` lookup / `k in d` membership basis. -/
def dictGet {κ α : Type} [DecidableEq κ] : List (κ × α) → κ → Option α
  | [], _ => none
  | (k', v) :: rest, k => if k' = k then some v else dictGet rest k

/-- `d[k] = v` assignment. -/
def dictSet {κ α : Type} [DecidableEq κ] : List (κ × α) → κ → α → List (κ × α)
  | [], k, v => [(k, v)]
  | (k', v') :: rest, k, v =>
    if k' = k then (k', v) :: rest else (k', v') :: dictSet rest k v

/-! ## Scan records and stores (`matrix_console.py`) -/

/-- One record produced by `scan_nmcli`. -/
structure Net where
  ssid : String
  signal : ℤ
  security : String
  bssid : String
deriving DecidableEq, Repr

/-- One value of the discovered-devices store (`update_discovered`). -/
structure DiscoveredDevice where
  ssid : String
  first_seen : String
  last_seen : String
  last_signal : ℤ
  security : String
deriving DecidableEq, Repr

/-- One value of the lab-devices store. -/
structure LabEntry where
  ssid : String
  active : Bool
deriving DecidableEq, Repr

/-- Split a character list at every occurrence of `sep` (Python `str.split`
with a one-character separator, no maxsplit). -/
def split_char (sep : Char) : List Char → List (List Char)
  | [] => [[]]
  | c :: rest =>
    match split_char sep rest with
    | [] => [[]]
    | g :: gs => if c = sep then [] :: g :: gs else (c :: g) :: gs

/-- Python's `line.split(":", 3)`: at most three splits, remainder kept whole. -/
def split_colon_3 (s : String) : List String :=
  match split_char ':' s.data with
  | p0 :: p1 :: p2 :: p3 :: rest =>
    [String.mk p0, String.mk p1, String.mk p2,
     String.mk (List.intercalate [':'] (p3 :: rest))]
  | ps => ps.map String.mk

/-- Python `str.strip()` whitespace characters (the ASCII ones). -/
def pyIsSpace (c : Char) : Bool :=
  c = ' ' ∨ c = '\t' ∨ c = '\n' ∨ c = '\r' ∨ c = '\x0b' ∨ c = '\x0c'

/-- Python `str.strip()` on a character list. -/
def trimChars (s : List Char) : List Char :=
  ((s.dropWhile pyIsSpace).reverse.dropWhile pyIsSpace).reverse

/-- Decimal digit run to a number; `none` unless nonempty and all digits. -/
def digitsToNat (ds : List Char) : Option ℕ :=
  if ds = [] then none
  else if ds.all (fun c => c.isDigit) then
    some (ds.foldl (fun acc c => acc * 10 + (c.toNat - 48)) 0)
  else none

/-- Python's `int(s)` on a string: optional surrounding whitespace, optional
sign, decimal digits; `none` models the `ValueError` caught by the caller. -/
def pyParseInt (s : String) : Option ℤ :=
  match trimChars s.data with
  | '+' :: ds => (digitsToNat ds).map fun n => (n : ℤ)
  | '-' :: ds => (digitsToNat ds).map fun n => -(n : ℤ)
  | ds => (digitsToNat ds).map fun n => (n : ℤ)

/-- Body of the per-line loop of `scan_nmcli`: `none` when the line does not
split into the four expected fields (the record is skipped). -/
def parse_net_line (line : String) : Option Net :=
  match split_colon_3 line with
  | [ssid, signal, sec, bssid] =>
    some { ssid := if ssid = "" then "<hidden>" else ssid
           signal := (pyParseInt signal).getD 0
           security := if sec = "" then "OPEN" else sec
           bssid := bssid }
  | _ => none

/-- `scan_nmcli` applied to the lines of the external command's output:
parse each line, drop malformed ones, sort by descending signal (stable). -/
def scan_nmcli_parse (lines : List String) : List Net :=
  (lines.filterMap parse_net_line).mergeSort fun a b => decide (b.signal ≤ a.signal)

/-- One iteration of the loop in `update_discovered` for observation `n`. -/
def merge_observation (now : String) (d : List (String × DiscoveredDevice)) (n : Net) :
    List (String × DiscoveredDevice) :=
  if n.bssid = "" then d
  else
    match dictGet d n.bssid with
    | none => dictSet d n.bssid
        { ssid := n.ssid, first_seen := now, last_seen := now,
          last_signal := n.signal, security := n.security }
    | some old => dictSet d n.bssid
        { ssid := n.ssid, first_seen := old.first_seen, last_seen := now,
          last_signal := n.signal, security := n.security }

/-- `matrix_console.update_discovered`; the `datetime.utcnow().isoformat()+"Z"`
timestamp taken inside the function is the explicit parameter `now`. -/
def update_discovered (discovered : List (String × DiscoveredDevice)) (nets : List Net)
    (now : String) : List (String × DiscoveredDevice) :=
  nets.foldl (merge_observation now) discovered

/-- The last observation in `nets` whose key is `k`, if any (used to state
what `update_discovered` leaves at key `k`). -/
def last_obs (nets : List Net) (k : String) : Option Net :=
  match nets with
  | [] => none
  | n :: rest =>
    match last_obs rest k with
    | some m => some m
    | none => if n.bssid = k then some n else none

/-- What one key of the discovered store should hold after a merge, as the
spec states it: no observation leaves the key untouched; an observation on an
existing entry refreshes `ssid`, `last_seen`, `last_signal`, `security` but
keeps `first_seen`; an observation on a new key creates the entry with
`first_seen = last_seen = now`. -/
def merged_view (m : Option Net) (o : Option DiscoveredDevice) (now : String) :
    Option DiscoveredDevice :=
  match m, o with
  | none, o => o
  | some n, some v =>
    some { ssid := n.ssid, first_seen := v.first_seen, last_seen := now,
           last_signal := n.signal, security := n.security }
  | some n, none =>
    some { ssid := n.ssid, first_seen := now, last_seen := now,
           last_signal := n.signal, security := n.security }

/-- `matrix_console.ensure_lab_entries`: returns the updated lab store and the
`changed` flag; the source calls `save_json(LAB_FILE, lab_devices)` iff the
flag is set. -/
def ensure_lab_entries (discovered : List (String × DiscoveredDevice))
    (lab : List (String × LabEntry)) : List (String × LabEntry) × Bool :=
  discovered.foldl
    (fun acc p =>
      if (dictGet acc.1 p.1).isSome then acc
      else (dictSet acc.1 p.1 { ssid := p.2.ssid, active := false }, true))
    (lab, false)

/-- Result of `toggle_lab_device`: the returned store and the store contents
passed to `save_json` just before returning. -/
structure ToggleResult where
  lab : List (String × LabEntry)
  saved : List (String × LabEntry)
deriving DecidableEq, Repr

/-- `matrix_console.toggle_lab_device`. -/
def toggle_lab_device (bssid : String) (discovered : List (String × DiscoveredDevice))
    (lab : List (String × LabEntry)) : ToggleResult :=
  let info_ssid :=
    match dictGet discovered bssid with
    | some info => info.ssid
    | none => ""
  let entry := (dictGet lab bssid).getD { ssid := info_ssid, active := false }
  let entry' := { entry with active := !entry.active }
  let lab' := dictSet lab bssid entry'
  { lab := lab', saved := lab' }

/-! ## Footer ticker text and render cache (`footer.py`) -/

/-- `s.upper()` (the ticker text is ASCII, where Python and Lean agree). -/
def pyUpper (s : String) : String := String.mk (s.data.map Char.toUpper)

/-- `s.replace("\x00", "")`: the pattern is a single character, so this is a
filter. -/
def strip_nulls (s : String) : String := String.mk (s.data.filter fun c => c ≠ '\x00')

/-- The displayed fields of the footer state used by `_build_ticker_text`
(`init_footer_state` always populates all seven). -/
structure FooterFields where
  version : String
  lan_ip : String
  public_ip : String
  model : String
  os : String
  geo : String
  time : String
deriving DecidableEq, Repr

/-- `"  |  ".join(parts)` (structural join on the underlying characters). -/
def join_sep (sep : String) (parts : List String) : String :=
  String.mk (List.intercalate sep.data (parts.map String.data))

/-- `footer._build_ticker_text`. -/
def build_ticker_text (st : FooterFields) : String :=
  let parts := ["VERSION " ++ st.version, "LAN " ++ st.lan_ip, "PUBLIC " ++ st.public_ip,
    "MODEL " ++ st.model, "OS " ++ st.os, "LOC " ++ st.geo, "TIME " ++ st.time]
  let base := join_sep "  |  " parts
  let base := strip_nulls base
  pyUpper base ++ "   •   "

/-- An opaque rendered form; `footer_font.render(t, True, BLUE)` is modelled as
remembering the rendered text. -/
structure Surface where
  text : String
deriving DecidableEq, Repr

/-- The render step (`footer_font.render`). -/
def render_text (t : String) : Surface := ⟨t⟩

/-- The cache slots `_last_rendered_text` / `_last_rendered_surface` of the
footer state. -/
structure TickerCache where
  last_rendered_text : String
  last_rendered_surface : Option Surface
deriving DecidableEq, Repr

/-- Result of `_get_ticker_surface`: the returned surface, the updated cache
slots, and whether the render step was invoked during the call. -/
structure TickerGet where
  surface : Option Surface
  cache : TickerCache
  rendered : Bool
deriving DecidableEq, Repr

/-- `footer._get_ticker_surface` on composed text `ticker` and cache `c`. -/
def get_ticker_surface (ticker : String) (c : TickerCache) : TickerGet :=
  if ticker = "" then { surface := none, cache := c, rendered := false }
  else if ticker ≠ c.last_rendered_text ∨ c.last_rendered_surface = none then
    let s := render_text ticker
    { surface := some s
      cache := { last_rendered_text := ticker, last_rendered_surface := some s }
      rendered := true }
  else { surface := c.last_rendered_surface, cache := c, rendered := false }

/-! ## Main loop state machine (`matrix_console.main`) -/

def SCREEN_WIDTH : ℤ := 480

def SCREEN_HEIGHT : ℤ := 320

def SCAN_INTERVAL : ℤ := 21

def MOVIE_TYPE_DELAY : ℚ := 1 / 20

def ROW_Y_START : ℤ := 56

def ROW_H : ℤ := 20

/-- `max_rows` computed in `draw_console`. -/
def MAX_ROWS : ℤ := (SCREEN_HEIGHT - ROW_Y_START - 26) / ROW_H

/-- The mutable state of `matrix_console.main`'s loop.  `savedDiscovered` and
`savedLab` model the current contents of the two JSON files written by
`save_json`. -/
structure LoopState where
  nets : List Net
  discovered : List (String × DiscoveredDevice)
  savedDiscovered : List (String × DiscoveredDevice)
  lab : List (String × LabEntry)
  savedLab : List (String × LabEntry)
  cycle_start : ℚ
  scanning : Bool
  scanning_until : ℚ
  movie_line : String
  movie_visible_len : ℕ
  last_movie_type_time : ℚ
  row_map : List (ℤ × String)
  running : Bool
deriving DecidableEq

/-- The pygame events the loop reacts to. -/
inductive Event where
  | keyEscape
  | keyQ
  | keyR
  | mouseClick (x y : ℤ)
  | other
deriving DecidableEq

/-- `row_map` built by `draw_console`: row index ↦ bssid for the displayed
rows whose bssid is non-empty. -/
def compute_row_map (nets : List Net) : List (ℤ × String) :=
  (nets.take MAX_ROWS.toNat).enum.filterMap fun p =>
    if p.2.bssid ≠ "" then some ((p.1 : ℤ), p.2.bssid) else none

/-- Body of the `K_r` ("rescan now") handler in `matrix_console.main`, lines
421-432: scan, merge, persist, ensure defaults, reset the cycle clock, leave
the SCANNING visual phase off, and restart the movie line.  The external scan
result and the freshly picked movie line are parameters. -/
def rescan_steps (st : LoopState) (now : ℚ) (scanRes : List Net) (nowIso : String)
    (newLine : String) : LoopState :=
  let nets := scanRes
  let discovered := update_discovered st.discovered nets nowIso
  let el := ensure_lab_entries discovered st.lab
  { st with
      nets := nets
      discovered := discovered
      savedDiscovered := discovered
      lab := el.1
      savedLab := if el.2 then el.1 else st.savedLab
      cycle_start := now
      scanning := false
      scanning_until := 0
      movie_line := newLine
      movie_visible_len := 0
      last_movie_type_time := now }

/-- The event branch of the loop body. -/
def handle_event (scanRes : List Net) (nowIso : String) (now : ℚ) (newLine : String)
    (st : LoopState) : Event → LoopState
  | .keyEscape => { st with running := false }
  | .keyQ => { st with running := false }
  | .keyR => rescan_steps st now scanRes nowIso newLine
  | .mouseClick _ y =>
    if ROW_Y_START ≤ y ∧ y < SCREEN_HEIGHT - 26 then
      let row_index := (y - ROW_Y_START) / ROW_H
      match dictGet st.row_map row_index with
      | some bssid =>
        let r := toggle_lab_device bssid st.discovered st.lab
        { st with lab := r.lab, savedLab := r.saved }
      | none => st
    else st
  | .other => st

/-- One iteration of the `while running` loop of `matrix_console.main`:
movie-line typing, scan timing, drawing (which rebuilds `row_map`), then event
handling.  All `time.time()` reads within the iteration are modelled by the
single captured `now`. -/
def tick (st : LoopState) (now : ℚ) (scanRes : List Net) (nowIso : String)
    (newLine : String) (events : List Event) : LoopState :=
  let st1 :=
    if st.movie_visible_len < st.movie_line.length ∧
        MOVIE_TYPE_DELAY ≤ now - st.last_movie_type_time then
      { st with movie_visible_len := st.movie_visible_len + 1, last_movie_type_time := now }
    else st
  let st2 :=
    if st1.scanning then
      if st1.scanning_until ≤ now then
        let nets := scanRes
        let discovered := update_discovered st1.discovered nets nowIso
        let el := ensure_lab_entries discovered st1.lab
        { st1 with
            nets := nets
            discovered := discovered
            savedDiscovered := discovered
            lab := el.1
            savedLab := if el.2 then el.1 else st1.savedLab
            cycle_start := now
            scanning := false
            movie_line := newLine
            movie_visible_len := 0
            last_movie_type_time := now }
      else st1
    else
      if (SCAN_INTERVAL : ℚ) - (now - st1.cycle_start) ≤ 0 then
        { st1 with scanning := true, scanning_until := now + 1 }
      else st1
  let st3 := { st2 with row_map := compute_row_map st2.nets }
  events.foldl (handle_event scanRes nowIso now newLine) st3

/-! ## Typed-text animator (`matrix_movie_singleline.type_sentence`) -/

/-- `matrix_movie_singleline.MISTAKE_CHARS`. -/
def MISTAKE_CHARS : List Char := "abcdefghijklmnopqrstuvwxyz0123456789#$%&*+-=/<>".data

/-- The character loop of `type_sentence`.  The `random.random() <
MISTAKE_PROBABILITY` draw at step `k` is the oracle `mistake k`, and
`random.choice(MISTAKE_CHARS)` is indexed by the oracle `wrongIdx k`.
Rendering and delays have no effect on the accumulated text. -/
def type_sentence_go (mistake : ℕ → Bool) (wrongIdx : ℕ → ℕ) :
    List Char → List Char → ℕ → List Char
  | txt, [], _ => txt
  | txt, ch :: rest, k =>
    let txt' :=
      if ch ≠ ' ' ∧ mistake k = true then
        (txt ++ [MISTAKE_CHARS.getD (wrongIdx k % MISTAKE_CHARS.length) 'a']).dropLast
      else txt
    type_sentence_go mistake wrongIdx (txt' ++ [ch]) rest (k + 1)

/-- `matrix_movie_singleline.type_sentence` (returned text). -/
def type_sentence (sentence : List Char) (mistake : ℕ → Bool) (wrongIdx : ℕ → ℕ) :
    List Char :=
  type_sentence_go mistake wrongIdx [] sentence 0

end MatrixToy

namespace MatrixToy

/-! ## Basic lemmas about the numeric helpers -/

theorem pytrunc_of_nonneg {q : ℚ} (h : 0 ≤ q) : pytrunc q = ⌊q⌋ := by
  simp [pytrunc, not_lt.mpr h]

theorem pymod_nonneg (a : ℚ) {b : ℚ} (hb : 0 < b) : 0 ≤ pymod a b := by
  have h1 : (⌊a / b⌋ : ℚ) ≤ a / b := Int.floor_le _
  have h2 : b * (⌊a / b⌋ : ℚ) ≤ b * (a / b) := by
    exact mul_le_mul_of_nonneg_left h1 hb.le
  have h3 : b * (a / b) = a := by
    field_simp
  unfold pymod
  linarith

theorem pymod_lt (a : ℚ) {b : ℚ} (hb : 0 < b) : pymod a b < b := by
  have h1 : a / b < (⌊a / b⌋ : ℚ) + 1 := Int.lt_floor_add_one _
  have h2 : b * (a / b) < b * ((⌊a / b⌋ : ℚ) + 1) := by
    exact mul_lt_mul_of_pos_left h1 hb
  have h3 : b * (a / b) = a := by
    field_simp
  unfold pymod
  nlinarith


/-! ## Dictionary lemmas -/

theorem dictGet_dictSet_self {κ α : Type} [DecidableEq κ] (d : List (κ × α)) (k : κ) (v : α) :
    dictGet (dictSet d k v) k = some v := by
  induction d with
  | nil => simp [dictGet, dictSet]
  | cons p rest ih =>
    obtain ⟨k', v'⟩ := p
    by_cases h : k' = k
    · simp [dictSet, dictGet, h]
    · simp [dictSet, dictGet, h, ih]

theorem dictGet_dictSet_ne {κ α : Type} [DecidableEq κ] (d : List (κ × α)) (k q : κ) (v : α)
    (h : q ≠ k) : dictGet (dictSet d k v) q = dictGet d q := by
  induction d with
  | nil => simp [dictGet, dictSet, Ne.symm h]
  | cons p rest ih =>
    obtain ⟨k', v'⟩ := p
    by_cases h' : k' = k
    · subst h'
      simp [dictSet, dictGet, Ne.symm h]
    · simp only [dictSet, if_neg h']
      by_cases h'' : k' = q
      · simp [dictGet, h'']
      · simp [dictGet, h'', ih]

/-! ## Claim C1: footer ticker wrap-around -/

/-- C1: when the incoming ticker position is already left of `-width` (the
rendered ticker has passed fully off the left of the viewport), `draw_footer`
returns exactly `screen_width`: the wrap reset, with the decrement of the new
position deferred to the next frame. -/
theorem ticker_wrap_reset (ticker_x : ℚ) (width screen_width : ℤ) (tick_speed : ℚ)
    (hx : ticker_x < -(width : ℚ)) (hs : 0 < tick_speed) (hw : 0 ≤ width) :
    draw_footer_pos ticker_x width screen_width tick_speed = (screen_width : ℚ) := by
  have hw' : -(width : ℚ) ≤ 0 := by
    simp only [neg_nonpos]
    exact_mod_cast hw
  have hxneg : ticker_x < 0 := lt_of_lt_of_le hx hw'
  have hceil : ⌈ticker_x⌉ ≤ -width := Int.ceil_le.mpr (by push_cast; linarith)
  have hceilq : ((⌈ticker_x⌉ : ℤ) : ℚ) ≤ -(width : ℚ) := by exact_mod_cast hceil
  simp only [draw_footer_pos, pytrunc, if_pos hxneg]
  rw [if_pos (by linarith)]

/-- C1 witness: width 50, viewport 480, incoming position -51, speed 2. -/
theorem ticker_wrap_reset_witness : draw_footer_pos (-51) 50 480 2 = 480 :=
  ticker_wrap_reset (-51) 50 480 2 (by norm_num) (by norm_num) (by norm_num)

/-! ## Claim C4: countdown color continuity at the gradient boundaries -/

/-- C4: the countdown color at `remaining = 15` is the safe color (green), and
at `remaining = 10` it is yellow, the endpoint shared by the green-to-yellow
segment (at parameter 1) and the yellow-to-red segment (at parameter 0). -/
theorem countdown_color_boundaries (s : ℤ) :
    get_countdown_color 15 s = GREEN ∧
    get_countdown_color 10 s = YELLOW ∧
    lerp_color GREEN YELLOW 1 = YELLOW ∧
    lerp_color YELLOW RED 0 = YELLOW := by
  refine ⟨?_, ?_, ?_, ?_⟩ <;>
    norm_num [get_countdown_color, lerp_color, pytrunc, GREEN, YELLOW, RED, Prod.ext_iff]

/-- C4 witness: the boundary colors, evaluated at the console scan interval. -/
theorem countdown_color_boundaries_witness :
    get_countdown_color 15 21 = GREEN ∧ get_countdown_color 10 21 = YELLOW :=
  ⟨(countdown_color_boundaries 21).1, (countdown_color_boundaries 21).2.1⟩

/-! ## Claim C8: degenerate cycle length -/

/-- C8: for every cycle length `L ≤ 1` the animator takes the early return,
yielding the fully revealed text and progress equal to its length for every
elapsed time; the branch dividing by `L - 1` is never evaluated. -/
theorem title_degenerate_cycle (full : String) (e : ℚ) (L : ℤ) (rand : ℕ → ℕ)
    (hL : L ≤ 1) :
    animate_title_text full e L rand = (full, (full.length : ℤ)) := by
  have h : ((L : ℚ) ≤ 1) := by exact_mod_cast hL
  simp [animate_title_text, h]

/-- C8 witness: cycle length 1. -/
theorem title_degenerate_cycle_witness :
    animate_title_text "HI" 5 1 (fun _ => 0) = ("HI", 2) :=
  title_degenerate_cycle "HI" 5 1 (fun _ => 0) (by norm_num)

/-! ## Claim C10: typed text equals the input sentence -/

theorem type_sentence_go_eq (mistake : ℕ → Bool) (wrongIdx : ℕ → ℕ) :
    ∀ (rest txt : List Char) (k : ℕ),
      type_sentence_go mistake wrongIdx txt rest k = txt ++ rest := by
  intro rest
  induction rest with
  | nil => intro txt k; simp [type_sentence_go]
  | cons ch rest ih =>
    intro txt k
    simp only [type_sentence_go]
    split
    · rw [show ((txt ++ [MISTAKE_CHARS.getD (wrongIdx k % MISTAKE_CHARS.length) 'a']).dropLast) = txt by
        simp]
      rw [ih]
      simp
    · rw [ih]
      simp

/-- C10: for every sentence and every outcome of the randomness oracles, the
text returned by `type_sentence` is exactly the input sentence: each injected
mistake character is removed again before the real character is committed. -/
theorem typed_text_returns_sentence (sentence : List Char) (mistake : ℕ → Bool)
    (wrongIdx : ℕ → ℕ) :
    type_sentence sentence mistake wrongIdx = sentence := by
  unfold type_sentence
  rw [type_sentence_go_eq]
  simp

/-- C10 witness: a sentence typed with the mistake oracle always firing. -/
theorem typed_text_returns_sentence_witness :
    type_sentence "Wake up, Neo.".data (fun _ => true) (fun k => k) = "Wake up, Neo.".data :=
  typed_text_returns_sentence "Wake up, Neo.".data (fun _ => true) (fun k => k)

/-! ## Claim C2: lab toggle -/

/-- C2: `toggle_lab_device` persists exactly the updated store, flips the
`active` flag of an existing entry, and for a missing entry creates one whose
`ssid` defaults to the discovery data (or `""` when the key is unknown there)
with `active = true`; the updated entry is available at the key in the
returned store. -/
theorem lab_toggle_spec (k : String) (disc : List (String × DiscoveredDevice))
    (lab : List (String × LabEntry)) :
    (toggle_lab_device k disc lab).saved = (toggle_lab_device k disc lab).lab ∧
    (∀ e, dictGet lab k = some e →
      dictGet (toggle_lab_device k disc lab).lab k = some { e with active := !e.active }) ∧
    (dictGet lab k = none →
      dictGet (toggle_lab_device k disc lab).lab k =
        some { ssid := (match dictGet disc k with | some i => i.ssid | none => ""),
               active := true }) := by
  refine ⟨rfl, ?_, ?_⟩
  · intro e he
    simp [toggle_lab_device, he, dictGet_dictSet_self]
  · intro h
    cases hd : dictGet disc k <;>
      simp [toggle_lab_device, h, hd, dictGet_dictSet_self]

/-- C2 witness: toggling a key unknown to both stores yields a persisted entry
with `ssid = ""` and `active = true`. -/
theorem lab_toggle_spec_witness :
    dictGet (toggle_lab_device "AA:BB" [] []).lab "AA:BB" =
      some { ssid := "", active := true } :=
  (lab_toggle_spec "AA:BB" [] []).2.2 rfl

/-! ## Claim C7: ticker render cache -/

theorem build_ticker_text_ne_empty (s : FooterFields) : build_ticker_text s ≠ "" := by
  intro h
  have h2 := congrArg String.length h
  rw [build_ticker_text, String.length_append] at h2
  have h7 : ("   •   " : String).length = 7 := rfl
  have h0 : ("" : String).length = 0 := rfl
  rw [h7, h0] at h2
  omega

theorem get_ticker_surface_rendered_iff (t : String) (c : TickerCache) (ht : t ≠ "") :
    (get_ticker_surface t c).rendered = true ↔
      (t ≠ c.last_rendered_text ∨ c.last_rendered_surface = none) := by
  unfold get_ticker_surface
  rw [if_neg ht]
  by_cases hc : t ≠ c.last_rendered_text ∨ c.last_rendered_surface = none
  · rw [if_pos hc]
    simpa using hc
  · rw [if_neg hc]
    simpa using hc

theorem get_ticker_surface_cache_text (t : String) (c : TickerCache) (ht : t ≠ "") :
    (get_ticker_surface t c).cache.last_rendered_text = t ∧
      (get_ticker_surface t c).cache.last_rendered_surface ≠ none := by
  unfold get_ticker_surface
  rw [if_neg ht]
  by_cases hc : t ≠ c.last_rendered_text ∨ c.last_rendered_surface = none
  · rw [if_pos hc]
    exact ⟨rfl, by simp⟩
  · push_neg at hc
    rw [if_neg (by simpa using hc)]
    exact ⟨hc.1.symm, hc.2⟩

theorem get_ticker_surface_surface_eq_cache (t : String) (c : TickerCache) (ht : t ≠ "") :
    (get_ticker_surface t c).surface =
      (get_ticker_surface t c).cache.last_rendered_surface := by
  unfold get_ticker_surface
  rw [if_neg ht]
  by_cases hc : t ≠ c.last_rendered_text ∨ c.last_rendered_surface = none
  · rw [if_pos hc]
  · rw [if_neg hc]

theorem get_ticker_surface_hit (t : String) (c : TickerCache) (ht : t ≠ "")
    (he : c.last_rendered_text = t) (hs : c.last_rendered_surface ≠ none) :
    get_ticker_surface t c =
      { surface := c.last_rendered_surface, cache := c, rendered := false } := by
  unfold get_ticker_surface
  rw [if_neg ht, if_neg (by simpa using ⟨he.symm, hs⟩)]

/-- C7: `_get_ticker_surface` invokes the render step iff the composed string
differs from the last-rendered one or no rendered form exists; a second
request with the unchanged composed string reuses the cached surface without
re-rendering, and composing changed fields triggers exactly one re-render. -/
theorem ticker_cache_spec (c : TickerCache) (s1 s2 : FooterFields)
    (h : build_ticker_text s2 ≠ build_ticker_text s1) :
    ((get_ticker_surface (build_ticker_text s1) c).rendered = true ↔
      (build_ticker_text s1 ≠ c.last_rendered_text ∨ c.last_rendered_surface = none)) ∧
    (get_ticker_surface (build_ticker_text s1)
        (get_ticker_surface (build_ticker_text s1) c).cache).rendered = false ∧
    (get_ticker_surface (build_ticker_text s1)
        (get_ticker_surface (build_ticker_text s1) c).cache).surface =
      (get_ticker_surface (build_ticker_text s1) c).surface ∧
    (get_ticker_surface (build_ticker_text s2)
        (get_ticker_surface (build_ticker_text s1) c).cache).rendered = true := by
  have h1 := build_ticker_text_ne_empty s1
  have h2 := build_ticker_text_ne_empty s2
  obtain ⟨hct, hcs⟩ := get_ticker_surface_cache_text (build_ticker_text s1) c h1
  have hhit := get_ticker_surface_hit (build_ticker_text s1)
    (get_ticker_surface (build_ticker_text s1) c).cache h1 hct hcs
  refine ⟨get_ticker_surface_rendered_iff _ c h1, ?_, ?_, ?_⟩
  · rw [hhit]
  · rw [hhit, get_ticker_surface_surface_eq_cache _ c h1]
  · rw [get_ticker_surface_rendered_iff _ _ h2, hct]
    exact Or.inl h

/-- C7 witness: rendering, reusing the cache, then invalidating it by changing
the version field. -/
theorem ticker_cache_spec_witness :
    (get_ticker_surface
        (build_ticker_text ⟨"0.1", "a", "b", "c", "d", "e", "f"⟩)
        (get_ticker_surface (build_ticker_text ⟨"0.1", "a", "b", "c", "d", "e", "f"⟩)
          ⟨"", none⟩).cache).rendered = false ∧
    (get_ticker_surface
        (build_ticker_text ⟨"0.2", "a", "b", "c", "d", "e", "f"⟩)
        (get_ticker_surface (build_ticker_text ⟨"0.1", "a", "b", "c", "d", "e", "f"⟩)
          ⟨"", none⟩).cache).rendered = true :=
  ⟨(ticker_cache_spec ⟨"", none⟩ ⟨"0.1", "a", "b", "c", "d", "e", "f"⟩
      ⟨"0.2", "a", "b", "c", "d", "e", "f"⟩ (by decide)).2.1,
   (ticker_cache_spec ⟨"", none⟩ ⟨"0.1", "a", "b", "c", "d", "e", "f"⟩
      ⟨"0.2", "a", "b", "c", "d", "e", "f"⟩ (by decide)).2.2.2⟩

/-! ## Claim C9: malformed scan records are skipped, the rest processed -/

/-- C9: every line of the batch that parses contributes its record to the scan
result, and every record of the result comes from some line that parses:
malformed lines are dropped without affecting the rest of the batch. -/
theorem scan_skips_malformed (lines : List String) :
    (∀ line ∈ lines, ∀ n : Net, parse_net_line line = some n →
      n ∈ scan_nmcli_parse lines) ∧
    (∀ n ∈ scan_nmcli_parse lines, ∃ line ∈ lines, parse_net_line line = some n) := by
  constructor
  · intro line hline n hn
    have hmem : n ∈ lines.filterMap parse_net_line :=
      List.mem_filterMap.mpr ⟨line, hline, hn⟩
    unfold scan_nmcli_parse
    exact ((List.mergeSort_perm _ _).mem_iff).mpr hmem
  · intro n hn
    unfold scan_nmcli_parse at hn
    exact List.mem_filterMap.mp (((List.mergeSort_perm _ _).mem_iff).mp hn)

/-- C9 witness: a malformed line in the middle of the batch does not stop the
well-formed records around it from being processed. -/
theorem scan_skips_malformed_witness :
    ({ ssid := "net", signal := 70, security := "WPA2", bssid := "AA:BB:CC:DD:EE:FF" } : Net) ∈
      scan_nmcli_parse ["net:70:WPA2:AA:BB:CC:DD:EE:FF", "garbage line", "other:40:OPEN:11:22:33:44:55:66"] :=
  (scan_skips_malformed _).1 "net:70:WPA2:AA:BB:CC:DD:EE:FF" (by decide) _ (by decide)

/-! ## Claim C3: reveal progress is monotone; final window fully revealed -/

theorem animate_title_text_final (full : String) (e : ℚ) (L : ℤ) (rand : ℕ → ℕ)
    (hL : 1 < L) (he : (L : ℚ) - 1 ≤ pymod e (L : ℚ)) :
    animate_title_text full e L rand = (full, (full.length : ℤ)) := by
  have hLq : (1 : ℚ) < (L : ℚ) := by exact_mod_cast hL
  have hp : ¬((L : ℚ) ≤ 1) := not_le.mpr hLq
  simp only [animate_title_text, if_neg hp, if_pos he]

theorem animate_title_text_snd (full : String) (e : ℚ) (L : ℤ) (rand : ℕ → ℕ)
    (hL : 1 < L) :
    (animate_title_text full e L rand).2 =
      if (L : ℚ) - 1 ≤ pymod e (L : ℚ) then (full.length : ℤ)
      else if full.length = 0 then 0
      else max 0 (min (full.length : ℤ)
        (pytrunc (pymod e (L : ℚ) / ((L : ℚ) - 1) * (full.length : ℚ)))) := by
  have hLq : (1 : ℚ) < (L : ℚ) := by exact_mod_cast hL
  have hp : ¬((L : ℚ) ≤ 1) := not_le.mpr hLq
  by_cases h1 : (L : ℚ) - 1 ≤ pymod e (L : ℚ)
  · simp [animate_title_text, hp, h1]
  · by_cases h2 : full.length = 0
    · simp [animate_title_text, hp, h1, h2]
    · simp [animate_title_text, hp, h1, h2]

/-- C3: for every cycle length `L > 1`, the reveal progress is non-decreasing
in the elapsed time taken modulo `L`, and throughout the final unit-time
window of the cycle the animator returns the full text with progress equal to
its length. -/
theorem title_reveal_monotone (full : String) (L : ℤ) (rand : ℕ → ℕ) (hL : 1 < L) :
    (∀ e1 e2 : ℚ, pymod e1 (L : ℚ) ≤ pymod e2 (L : ℚ) →
      (animate_title_text full e1 L rand).2 ≤ (animate_title_text full e2 L rand).2) ∧
    (∀ e : ℚ, (L : ℚ) - 1 ≤ pymod e (L : ℚ) →
      animate_title_text full e L rand = (full, (full.length : ℤ))) := by
  have hLq : (1 : ℚ) < (L : ℚ) := by exact_mod_cast hL
  have hLpos : (0 : ℚ) < (L : ℚ) := by linarith
  have hrev : (0 : ℚ) < (L : ℚ) - 1 := by linarith
  constructor
  · intro e1 e2 hle
    rw [animate_title_text_snd full e1 L rand hL, animate_title_text_snd full e2 L rand hL]
    have h01 : 0 ≤ pymod e1 (L : ℚ) := pymod_nonneg e1 hLpos
    by_cases hb2 : (L : ℚ) - 1 ≤ pymod e2 (L : ℚ)
    · rw [if_pos hb2]
      by_cases hb1 : (L : ℚ) - 1 ≤ pymod e1 (L : ℚ)
      · rw [if_pos hb1]
      · rw [if_neg hb1]
        by_cases hz : full.length = 0
        · rw [if_pos hz]
          exact Int.natCast_nonneg _
        · rw [if_neg hz]
          exact max_le (Int.natCast_nonneg _) (min_le_left _ _)
    · have hb1 : ¬((L : ℚ) - 1 ≤ pymod e1 (L : ℚ)) := fun hc => hb2 (le_trans hc hle)
      rw [if_neg hb2, if_neg hb1]
      by_cases hz : full.length = 0
      · simp [hz]
      · simp only [if_neg hz]
        have harg1 : 0 ≤ pymod e1 (L : ℚ) / ((L : ℚ) - 1) * (full.length : ℚ) := by
          have := div_nonneg h01 hrev.le
          positivity
        have harg2 : 0 ≤ pymod e2 (L : ℚ) / ((L : ℚ) - 1) * (full.length : ℚ) := by
          have := div_nonneg (pymod_nonneg e2 hLpos) hrev.le
          positivity
        rw [pytrunc_of_nonneg harg1, pytrunc_of_nonneg harg2]
        refine max_le_max le_rfl (min_le_min le_rfl (Int.floor_le_floor ?_))
        gcongr
  · intro e he
    exact animate_title_text_final full e L rand hL he

/-- C3 witness: title "AB", cycle length 2, elapsed times 0 and 1. -/
theorem title_reveal_monotone_witness :
    (animate_title_text "AB" 0 2 (fun _ => 0)).2 ≤
      (animate_title_text "AB" 1 2 (fun _ => 0)).2 ∧
    animate_title_text "AB" 1 2 (fun _ => 0) = ("AB", 2) :=
  ⟨(title_reveal_monotone "AB" 2 (fun _ => 0) (by norm_num)).1 0 1 (by norm_num [pymod]),
   (title_reveal_monotone "AB" 2 (fun _ => 0) (by norm_num)).2 1 (by norm_num [pymod])⟩

/-! ## Claim C6: discovery merge -/

theorem merge_observation_get_ne (now : String) (d : List (String × DiscoveredDevice))
    (n : Net) (k : String) (hk : n.bssid ≠ k) :
    dictGet (merge_observation now d n) k = dictGet d k := by
  unfold merge_observation
  by_cases hb : n.bssid = ""
  · rw [if_pos hb]
  · rw [if_neg hb]
    cases hd : dictGet d n.bssid <;>
      simp [hd, dictGet_dictSet_ne _ _ _ _ (Ne.symm hk)]

theorem merge_observation_get_self (now : String) (d : List (String × DiscoveredDevice))
    (n : Net) (k : String) (hb : n.bssid = k) (hbe : n.bssid ≠ "") :
    dictGet (merge_observation now d n) k = merged_view (some n) (dictGet d k) now := by
  unfold merge_observation
  rw [if_neg hbe, hb]
  cases hd : dictGet d k <;> simp [hd, merged_view, dictGet_dictSet_self]

theorem last_obs_cons (n : Net) (rest : List Net) (k : String) :
    last_obs (n :: rest) k =
      match last_obs rest k with
      | some m => some m
      | none => if n.bssid = k then some n else none := rfl

theorem last_obs_cons_ne (n : Net) (rest : List Net) (k : String) (hb : n.bssid ≠ k) :
    last_obs (n :: rest) k = last_obs rest k := by
  rw [last_obs_cons]
  cases hlast : last_obs rest k <;> simp [hlast, hb]

theorem update_discovered_char (now : String) (k : String) (hk : k ≠ "") :
    ∀ (nets : List Net) (d : List (String × DiscoveredDevice)),
      dictGet (update_discovered d nets now) k =
        merged_view (last_obs nets k) (dictGet d k) now := by
  intro nets
  induction nets with
  | nil =>
    intro d
    simp [update_discovered, last_obs, merged_view]
  | cons n rest ih =>
    intro d
    have hstep : update_discovered d (n :: rest) now =
        update_discovered (merge_observation now d n) rest now := rfl
    rw [hstep, ih]
    by_cases hb : n.bssid = k
    · have hbe : n.bssid ≠ "" := by rw [hb]; exact hk
      rw [merge_observation_get_self now d n k hb hbe]
      cases hlast : last_obs rest k with
      | none =>
        have hcons : last_obs (n :: rest) k = some n := by
          rw [last_obs_cons]
          simp [hlast, hb]
        rw [hcons]
        simp [merged_view]
      | some m =>
        have hcons : last_obs (n :: rest) k = some m := by
          rw [last_obs_cons]
          simp [hlast]
        rw [hcons]
        cases hd : dictGet d k <;> simp [merged_view]
    · rw [merge_observation_get_ne now d n k hb, last_obs_cons_ne n rest k hb]

theorem update_discovered_preserves (now : String) :
    ∀ (nets : List Net) (d : List (String × DiscoveredDevice)) (k : String)
      (v : DiscoveredDevice),
      dictGet d k = some v →
      ∃ v', dictGet (update_discovered d nets now) k = some v' ∧
        v'.first_seen = v.first_seen := by
  intro nets
  induction nets with
  | nil =>
    intro d k v hv
    exact ⟨v, by simpa [update_discovered] using hv, rfl⟩
  | cons n rest ih =>
    intro d k v hv
    have hstep : update_discovered d (n :: rest) now =
        update_discovered (merge_observation now d n) rest now := rfl
    rw [hstep]
    by_cases hb : n.bssid = k
    · by_cases hbe : n.bssid = ""
      · have hid : merge_observation now d n = d := by simp [merge_observation, hbe]
        rw [hid]
        exact ih d k v hv
      · have hmerge : dictGet (merge_observation now d n) k =
            some { ssid := n.ssid, first_seen := v.first_seen, last_seen := now,
                   last_signal := n.signal, security := n.security } := by
          rw [merge_observation_get_self now d n k hb hbe, hv]
          rfl
        obtain ⟨v', hv', hfs⟩ := ih (merge_observation now d n) k _ hmerge
        exact ⟨v', hv', by rw [hfs]⟩
    · have hsame : dictGet (merge_observation now d n) k = some v := by
        rw [merge_observation_get_ne now d n k hb, hv]
      exact ih _ k v hsame

/-- C6: for every non-empty key, what the merged store holds at the key is
determined by the last observation with that key and the previous entry: a
new key is created with `first_seen = last_seen = now`, an existing one has
`ssid`, `last_seen`, `last_signal`, `security` refreshed while `first_seen`
is kept; and no key present before the merge is ever removed (its
`first_seen` survives every merge). -/
theorem discovery_merge_spec (d : List (String × DiscoveredDevice)) (nets : List Net)
    (now : String) :
    (∀ k : String, k ≠ "" →
      dictGet (update_discovered d nets now) k =
        merged_view (last_obs nets k) (dictGet d k) now) ∧
    (∀ (k : String) (v : DiscoveredDevice), dictGet d k = some v →
      ∃ v', dictGet (update_discovered d nets now) k = some v' ∧
        v'.first_seen = v.first_seen) :=
  ⟨fun k hk => update_discovered_char now k hk nets d,
   fun k v hv => update_discovered_preserves now nets d k v hv⟩

/-- C6 witness: merging key "AA:BB" twice, signal 40 at time T1 then signal 70
at time T2, leaves `last_signal = 70` and `first_seen = T1`. -/
theorem discovery_merge_spec_witness :
    dictGet (update_discovered (update_discovered ([] : List (String × DiscoveredDevice))
        [{ ssid := "lab", signal := 40, security := "WPA2", bssid := "AA:BB" }] "T1")
        [{ ssid := "lab", signal := 70, security := "WPA2", bssid := "AA:BB" }] "T2")
        "AA:BB" =
      some { ssid := "lab", first_seen := "T1", last_seen := "T2",
             last_signal := 70, security := "WPA2" } :=
  ((discovery_merge_spec (update_discovered ([] : List (String × DiscoveredDevice))
        [{ ssid := "lab", signal := 40, security := "WPA2", bssid := "AA:BB" }] "T1")
        [{ ssid := "lab", signal := 70, security := "WPA2", bssid := "AA:BB" }] "T2").1
      "AA:BB" (by decide)).trans (by decide)

/-! ## Claim C5: manual rescan short-circuits to the post-scan steps -/

/-- C5: a rescan key event arriving mid-countdown (scanning off, time left on
the countdown) makes the very same tick perform the post-scan steps — merge
into the discovered store, persist it, ensure default lab entries, reset
`cycle_start` to the current time — and leaves the SCANNING visual phase off. -/
theorem manual_rescan_spec (st : LoopState) (now : ℚ) (scanRes : List Net)
    (nowIso newLine : String)
    (hscan : st.scanning = false)
    (hcount : 0 < (SCAN_INTERVAL : ℚ) - (now - st.cycle_start)) :
    (tick st now scanRes nowIso newLine [Event.keyR]).scanning = false ∧
    (tick st now scanRes nowIso newLine [Event.keyR]).cycle_start = now ∧
    (tick st now scanRes nowIso newLine [Event.keyR]).scanning_until = 0 ∧
    (tick st now scanRes nowIso newLine [Event.keyR]).nets = scanRes ∧
    (tick st now scanRes nowIso newLine [Event.keyR]).discovered =
      update_discovered st.discovered scanRes nowIso ∧
    (tick st now scanRes nowIso newLine [Event.keyR]).savedDiscovered =
      update_discovered st.discovered scanRes nowIso ∧
    (tick st now scanRes nowIso newLine [Event.keyR]).lab =
      (ensure_lab_entries (update_discovered st.discovered scanRes nowIso) st.lab).1 := by
  have hc2 : ¬((SCAN_INTERVAL : ℚ) - (now - st.cycle_start) ≤ 0) := not_le.mpr hcount
  by_cases hm : st.movie_visible_len < st.movie_line.length ∧
      MOVIE_TYPE_DELAY ≤ now - st.last_movie_type_time <;>
    simp [tick, handle_event, rescan_steps, hm, hscan, hc2]

/-- C5 witness: a concrete mid-countdown state handling the rescan key. -/
theorem manual_rescan_spec_witness :
    (tick ⟨[], [], [], [], [], 0, false, 0, "", 0, 0, [], true⟩ 1
        [{ ssid := "x", signal := 50, security := "OPEN", bssid := "AA" }] "T" "L"
        [Event.keyR]).scanning = false ∧
    (tick ⟨[], [], [], [], [], 0, false, 0, "", 0, 0, [], true⟩ 1
        [{ ssid := "x", signal := 50, security := "OPEN", bssid := "AA" }] "T" "L"
        [Event.keyR]).cycle_start = 1 :=
  ⟨(manual_rescan_spec ⟨[], [], [], [], [], 0, false, 0, "", 0, 0, [], true⟩ 1
      [{ ssid := "x", signal := 50, security := "OPEN", bssid := "AA" }] "T" "L"
      rfl (by norm_num [SCAN_INTERVAL])).1,
   (manual_rescan_spec ⟨[], [], [], [], [], 0, false, 0, "", 0, 0, [], true⟩ 1
      [{ ssid := "x", signal := 50, security := "OPEN", bssid := "AA" }] "T" "L"
      rfl (by norm_num [SCAN_INTERVAL])).2.1⟩

end MatrixToy
